import Mathlib

/-!
Shallow embedding of `dvc/tree/azure.py` (class `AzureTree`), the Azure
blob-storage backend of the dvc tree abstraction, together with proofs
about its listing-derived predicates (`exists`, `isfile`, `isdir`,
`walk_files`), page-size clamping (`_list_paths`), `remove`'s scheme
check, the container-existence check in `blob_service`, and
`get_etag`/`get_file_hash`.

A container's state is modelled as the ordered list of blob names the
vendor listing would produce.  The vendor SDK itself is out of scope in
the spec; its listing primitive is modelled by its documented interface:
`list_blobs(name_starts_with=p)` yields exactly the blob names that
start with `p`, in listing order.
-/

namespace AzureTree

/-- Python `str.startswith(pre)`. -/
def startswith (s pre : String) : Bool := pre.data.isPrefixOf s.data

/-- Python `str.endswith(suf)`. -/
def endswith (s suf : String) : Bool := suf.data.isSuffixOf s.data

/-- Python `str.strip(c)`: remove all leading and all trailing copies of `c`. -/
def pyStrip (s : String) (c : Char) : String :=
  ⟨((s.data.dropWhile (· == c)).reverse.dropWhile (· == c)).reverse⟩

/-- The blobs of one container, in the order the vendor listing yields them. -/
abbrev Container := List String

/-- Model of the vendor `ContainerClient.list_blobs(name_starts_with=pfx)`:
all blob names starting with `pfx`, in listing order.  `results_per_page` /
`items_per_page` only affect pagination of the lazy iterator, never the
sequence of names produced, so they do not appear here. -/
def listBlobs (store : Container) (pfx : String) : List String :=
  store.filter (fun k => startswith k pfx)

/-- Appends the trailing delimiter when missing, as `exists` (azure.py lines
144-145) and `isdir` (lines 189-191) do. -/
def ensureTrailingSlash (p : String) : String :=
  if endswith p "/" then p else p ++ "/"

/-- `AzureTree.exists` (azure.py lines 134-150): list under the raw path with
a page of one item, inspect only the first result; true if it equals the
path, or if it starts with the path extended by a trailing `/`. -/
def exists? (store : Container) (checkPath : String) : Bool :=
  match listBlobs store checkPath with
  | [] => false
  | path :: _ =>
    if checkPath == path then true
    else startswith path (ensureTrailingSlash checkPath)

/-- A BlobProperties value yielded by the vendor `list_blobs`; only its
`name` matters here.  `_list_paths` (azure.py line 205) projects
`blob.name` before yielding; `isfile` (line 164) consumes the raw object. -/
structure BlobProps where
  name : String
deriving DecidableEq, Repr

/-- Model of the vendor `ContainerClient.list_blobs` as its direct callers
see it: the BlobProperties objects of the blobs whose names start with
`pfx`, in listing order. -/
def listBlobsProps (store : Container) (pfx : String) : List BlobProps :=
  (listBlobs store pfx).map BlobProps.mk

/-- Python `==` between a `str` and a BlobProperties object: always false
(`str.__eq__` returns NotImplemented for a non-str and the SDK's reflected
equality requires same-class operands). -/
def strEqBlobProps (_s : String) (_b : BlobProps) : Bool := false

/-- `AzureTree.isfile` (azure.py lines 152-168): false for a path ending in
`/`; otherwise it iterates the raw `list_blobs` results and compares
`path_info.path == path` (line 164), where `path` is the BlobProperties
object itself, not its `name`. -/
def isfile (store : Container) (p : String) : Bool :=
  if endswith p "/" then false
  else
    match listBlobsProps store p with
    | [] => false
    | first :: _ => strEqBlobProps p first

/-- `AzureTree.isdir` (azure.py lines 170-197): true iff listing under the
path with the trailing delimiter appended (when missing) is non-empty. -/
def isdir (store : Container) (p : String) : Bool :=
  !(listBlobs store (ensureTrailingSlash p)).isEmpty

/-- `AzureTree.LIST_OBJECT_PAGE_SIZE` (azure.py line 27). -/
def LIST_OBJECT_PAGE_SIZE : Int := 5000

/-- The page-size clamp of `AzureTree._list_paths` (azure.py lines 200-201):
`if items_per_page is not None and items_per_page > LIST_OBJECT_PAGE_SIZE:
items_per_page = LIST_OBJECT_PAGE_SIZE`. -/
def clampItemsPerPage (itemsPerPage : Option Int) : Option Int :=
  match itemsPerPage with
  | some n =>
      if n > LIST_OBJECT_PAGE_SIZE then some LIST_OBJECT_PAGE_SIZE else some n
  | none => none

/-- The Python exceptions this file raises or handles. -/
inductive PyExc where
  | notImplementedError
  | resourceNotFoundError
  | typeError
  | httpResponseError (status : Nat)
deriving DecidableEq, Repr

/-- `dvc.path_info.CloudURLInfo`, per the spec's data model: an immutable
value `\x7bscheme, bucket, path\x7d` where `path` is a slash-delimited string. -/
structure PathInfo where
  scheme : String
  bucket : String
  path : String
deriving DecidableEq, Repr

/-- `Schemes.AZURE`, the scheme of this backend (azure.py line 19). -/
def azureScheme : String := "azure"

/-- A multi-container store for `remove`: the set of existing blobs as
(bucket, blob name) pairs. -/
abbrev Store := List (String × String)

/-- Model of the vendor `BlobClient.delete_blob`: removes the named blob
from the store, raising `ResourceNotFoundError` when it is absent. -/
def delete_blob (st : Store) (bucket path : String) : Except PyExc Store :=
  if (bucket, path) ∈ st then .ok (st.filter (fun o => o != (bucket, path)))
  else .error .resourceNotFoundError

/-- `AzureTree.remove` (azure.py lines 219-226): raise `NotImplementedError`
for a foreign scheme before touching the store; otherwise delete the blob at
`(bucket, path)` via the vendor `delete_blob`. -/
def remove (st : Store) (p : PathInfo) : Except PyExc Store :=
  if p.scheme ≠ azureScheme then .error .notImplementedError
  else delete_blob st p.bucket p.path

/-- The store that results from a call to `remove`: the new store on
success, the untouched store when `remove` raised. -/
def removeEffect (st : Store) (p : PathInfo) : Store :=
  match remove st p with
  | .ok st2 => st2
  | .error _ => st

/-- Outcome of the vendor `get_container_properties` probe in
`blob_service`. -/
inductive ContainerProbe where
  | ok
  | resourceNotFoundError
  | httpResponseError (status : Nat)
deriving DecidableEq, Repr

/-- How the container-existence check left things. -/
inductive ContainerOutcome where
  | existed
  | created
  | assumedExisting
deriving DecidableEq, Repr

/-- The container-existence check of `AzureTree.blob_service` (azure.py
lines 94-102): `ResourceNotFoundError` leads to `create_container`; an
`HttpResponseError` is re-raised unless its status code is 403, in which
case construction proceeds. -/
def verifyContainer : ContainerProbe → Except PyExc ContainerOutcome
  | .ok => .ok .existed
  | .resourceNotFoundError => .ok .created
  | .httpResponseError s =>
      if s ≠ 403 then .error (.httpResponseError s) else .ok .assumedExisting

/-- The blobs of one container together with their native etags, as the
vendor `get_blob_properties` reports them: (blob name, etag) pairs.
`get_blob_properties` raises `ResourceNotFoundError` when the blob is
absent. -/
abbrev EtagStore := List (String × String)

/-- Looks up the native etag of the blob named `p`. -/
def blobProperties (blobs : EtagStore) (p : String) : Option String :=
  (blobs.find? (fun b => b.1 == p)).map (·.2)

/-- `AzureTree.get_etag` (azure.py lines 105-110): fetch the blob's etag and
strip surrounding double quotes (Python `etag.strip('"')`). -/
def get_etag (blobs : EtagStore) (p : String) : Except PyExc String :=
  match blobProperties blobs p with
  | none => .error .resourceNotFoundError
  | some e => .ok (pyStrip e '"')

/-- `dvc.hash_info.HashInfo`, per the spec's data model:
`\x7balgorithm_name, value\x7d`. -/
structure HashInfo where
  name : String
  value : String
deriving DecidableEq, Repr

/-- `AzureTree.PARAM_CHECKSUM` (azure.py line 25). -/
def PARAM_CHECKSUM : String := "etag"

/-- `AzureTree.get_file_hash` (azure.py lines 228-229):
`HashInfo(self.PARAM_CHECKSUM, self.get_etag(path_info))`. -/
def get_file_hash (blobs : EtagStore) (p : String) : Except PyExc HashInfo :=
  (get_etag blobs p).map (fun v => ⟨PARAM_CHECKSUM, v⟩)

/-- Python `/` applied to two `str` values: `str` defines no `__truediv__`,
so this raises `TypeError` unconditionally. -/
def strTruediv (_a _b : String) : Except PyExc String :=
  .error .typeError

/-- `AzureTree.walk_files` (azure.py lines 207-217), with `path_info.path`
a slash-delimited string (spec data model).  The body starts with
`path = path_info.path / ""`, then (unless the `prefix` kwarg is set)
appends a trailing `/` when missing, lists under the resulting prefix and
yields the names not ending in `/`. -/
def walk_files (store : Container) (p : String) (pfxKwarg : Bool) :
    Except PyExc (List String) := do
  let path ← strTruediv p ""
  let path :=
    if !pfxKwarg then
      if endswith path "/" then path else path ++ "/"
    else path
  return (listBlobs store path).filter (fun f => !(endswith f "/"))

/-- C2: `isdir(P)` is true iff listing the store with `P` plus the trailing
delimiter (appended only when missing) yields at least one result; in
particular `isdir "data/al"` is false when the store holds only
`data/alpha`, and true when it holds `data/al/x`. -/
theorem isdir_listing_iff :
    (∀ (store : Container) (p : String),
        isdir store p = true ↔
          ∃ k ∈ store, startswith k (ensureTrailingSlash p) = true) ∧
    isdir ["data/alpha"] "data/al" = false ∧
    isdir ["data/al/x"] "data/al" = true := by
  refine ⟨fun store p => ?_, by decide, by decide⟩
  simp [isdir, listBlobs, List.isEmpty_eq_false, List.filter_eq_nil_iff]

/-- C3 (code bug): `isfile` compares the path string against the raw
BlobProperties object — azure.py line 164 lacks the `.name` projection
that `_list_paths` (line 205) performs — so it returns false for every
input; in particular it is false at `data/f` although the first listing
result under `data/f` is the blob named `data/f`, where the claim
requires true. -/
theorem isfile_always_false :
    (∀ (store : Container) (p : String), isfile store p = false) ∧
    isfile ["data/f"] "data/f" = false ∧
    (listBlobsProps ["data/f"] "data/f").map BlobProps.name = ["data/f"] := by
  refine ⟨fun store p => ?_, by decide, by decide⟩
  simp only [isfile]
  split
  · rfl
  · cases listBlobsProps store p with
    | nil => rfl
    | cons a l => rfl

/-- C5: `_list_paths` uses the effective page size `min s 5000` for every
requested size `s`: a request of 50000 is clamped to 5000, a request at or
below 5000 passes through unchanged, a missing request is left alone, and
clamping never errors. -/
theorem list_paths_page_clamp :
    (∀ s : Int, clampItemsPerPage (some s) = some (min s LIST_OBJECT_PAGE_SIZE)) ∧
    clampItemsPerPage (some 50000) = some 5000 ∧
    (∀ s : Int, s ≤ LIST_OBJECT_PAGE_SIZE → clampItemsPerPage (some s) = some s) ∧
    clampItemsPerPage none = none := by
  refine ⟨fun s => ?_, by decide, fun s h => ?_, rfl⟩
  · simp only [clampItemsPerPage]
    split
    · next hgt => rw [min_eq_right (le_of_lt hgt)]
    · next hle => rw [min_eq_left (not_lt.mp hle)]
  · simp [clampItemsPerPage, not_lt.mpr h]

/-- Witness for `list_paths_page_clamp` at the concrete request 100. -/
theorem list_paths_page_clamp_witness :
    clampItemsPerPage (some 100) = some 100 :=
  list_paths_page_clamp.2.2.1 100 (by decide)

/-- C6: `remove` on a path of a foreign scheme raises `NotImplementedError`
immediately, leaving the store unchanged; on a path of the matching `azure`
scheme its effect is exactly the removal of the object at that
(bucket, path): a present blob is deleted and nothing else, and for an
absent blob the vendor `ResourceNotFoundError` propagates with the store
unchanged. -/
theorem remove_scheme_guard :
    (∀ (st : Store) (p : PathInfo), p.scheme ≠ azureScheme →
        remove st p = Except.error PyExc.notImplementedError ∧
          removeEffect st p = st) ∧
    (∀ (st : Store) (p : PathInfo), p.scheme = azureScheme →
        removeEffect st p = st.filter (fun o => o != (p.bucket, p.path)) ∧
        ((p.bucket, p.path) ∈ st →
          remove st p =
            Except.ok (st.filter (fun o => o != (p.bucket, p.path)))) ∧
        ((p.bucket, p.path) ∉ st →
          remove st p = Except.error PyExc.resourceNotFoundError)) := by
  constructor
  · intro st p h
    have he : remove st p = Except.error PyExc.notImplementedError := by
      simp [remove, h]
    exact ⟨he, by simp [removeEffect, he]⟩
  · intro st p h
    by_cases hm : (p.bucket, p.path) ∈ st
    · have hok : remove st p =
          Except.ok (st.filter (fun o => o != (p.bucket, p.path))) := by
        simp [remove, delete_blob, h, hm]
      exact ⟨by simp [removeEffect, hok], fun _ => hok, fun hn => absurd hm hn⟩
    · have herr : remove st p = Except.error PyExc.resourceNotFoundError := by
        simp [remove, delete_blob, h, hm]
      have hkeep : st.filter (fun o => o != (p.bucket, p.path)) = st := by
        rw [List.filter_eq_self]
        intro o ho
        exact bne_iff_ne.mpr (fun hoe => hm (hoe ▸ ho))
      exact ⟨by simp [removeEffect, herr, hkeep], fun hmem => absurd hmem hm,
        fun _ => herr⟩

/-- Witness for `remove_scheme_guard`: an `s3` path is refused with the
store untouched; an `azure` path deletes the present blob `x` and nothing
else; removing the absent blob `x` from a store holding only `y` raises
the vendor not-found error. -/
theorem remove_scheme_guard_witness :
    (remove [("b", "x")] ⟨"s3", "b", "x"⟩ = Except.error PyExc.notImplementedError ∧
      removeEffect [("b", "x")] ⟨"s3", "b", "x"⟩ = [("b", "x")]) ∧
    remove [("b", "x"), ("b", "y")] ⟨"azure", "b", "x"⟩ =
      Except.ok ((([("b", "x"), ("b", "y")] : Store)).filter
        (fun o => o != ("b", "x"))) ∧
    remove [("b", "y")] ⟨"azure", "b", "x"⟩ =
      Except.error PyExc.resourceNotFoundError :=
  ⟨remove_scheme_guard.1 [("b", "x")] ⟨"s3", "b", "x"⟩ (by decide),
   (remove_scheme_guard.2 [("b", "x"), ("b", "y")] ⟨"azure", "b", "x"⟩ rfl).2.1
     (by decide),
   (remove_scheme_guard.2 [("b", "y")] ⟨"azure", "b", "x"⟩ rfl).2.2 (by decide)⟩

/-- C7: in the container-existence check of `blob_service`, a not-found
response leads to container creation, a 403 HTTP error is swallowed and
construction proceeds, and every other HTTP error propagates. -/
theorem container_check_behavior :
    verifyContainer ContainerProbe.resourceNotFoundError =
        Except.ok ContainerOutcome.created ∧
    verifyContainer (ContainerProbe.httpResponseError 403) =
        Except.ok ContainerOutcome.assumedExisting ∧
    verifyContainer ContainerProbe.ok = Except.ok ContainerOutcome.existed ∧
    (∀ s : Nat, s ≠ 403 →
        verifyContainer (ContainerProbe.httpResponseError s) =
          Except.error (PyExc.httpResponseError s)) := by
  refine ⟨rfl, rfl, rfl, fun s h => ?_⟩
  simp [verifyContainer, h]

/-- Witness for `container_check_behavior` at status 500. -/
theorem container_check_behavior_witness :
    verifyContainer (ContainerProbe.httpResponseError 500) =
      Except.error (PyExc.httpResponseError 500) :=
  container_check_behavior.2.2.2 500 (by decide)

/-- C8: `get_file_hash(P)` returns a `HashInfo` whose algorithm is `etag`
and whose value is the blob's native etag with surrounding double quotes
stripped when the blob exists, and fails with not-found when it does not. -/
theorem get_file_hash_spec :
    (∀ (blobs : EtagStore) (p e : String), blobProperties blobs p = some e →
        get_file_hash blobs p = Except.ok ⟨"etag", pyStrip e '"'⟩) ∧
    (∀ (blobs : EtagStore) (p : String), blobProperties blobs p = none →
        get_file_hash blobs p = Except.error PyExc.resourceNotFoundError) := by
  constructor
  · intro blobs p e h
    simp [get_file_hash, get_etag, h, PARAM_CHECKSUM, Except.map]
  · intro blobs p h
    simp [get_file_hash, get_etag, h, Except.map]

/-- Witness for `get_file_hash_spec` at a present and an absent blob. -/
theorem get_file_hash_spec_witness :
    get_file_hash [("f", "\"0x8D9\"")] "f" =
      Except.ok ⟨"etag", pyStrip "\"0x8D9\"" '"'⟩ ∧
    get_file_hash [] "g" = Except.error PyExc.resourceNotFoundError :=
  ⟨get_file_hash_spec.1 [("f", "\"0x8D9\"")] "f" "\"0x8D9\"" rfl,
   get_file_hash_spec.2 [] "g" rfl⟩

/-- C1 counterexample: with store `["a#x", "a/f"]` and path `a`, the object
`a/f` begins with the directory prefix `a/`, yet `exists` returns false,
because the single inspected listing result is `a#x`. -/
theorem exists_claim_counterexample :
    AzureTree.exists? ["a#x", "a/f"] "a" = false ∧
    ¬ ("a" ∈ (["a#x", "a/f"] : Container)) ∧
    "a/f" ∈ (["a#x", "a/f"] : Container) ∧
    startswith "a/f" (ensureTrailingSlash "a") = true := by decide

/-- C1 (amended): `exists(P)` is true iff the listing under raw prefix `P`
is non-empty and its first element either equals `P` or begins with `P`
with the trailing delimiter appended when absent; consequently
`exists(P) = true` implies that an exact object `P` or an object under the
directory prefix exists, but not conversely. -/
theorem exists_amended :
    (∀ (store : Container) (p : String),
        AzureTree.exists? store p = true ↔
          ∃ first rest, listBlobs store p = first :: rest ∧
            (first = p ∨ startswith first (ensureTrailingSlash p) = true)) ∧
    (∀ (store : Container) (p : String), AzureTree.exists? store p = true →
        p ∈ store ∨ ∃ k ∈ store, startswith k (ensureTrailingSlash p) = true) := by
  have hiff : ∀ (store : Container) (p : String),
      AzureTree.exists? store p = true ↔
        ∃ first rest, listBlobs store p = first :: rest ∧
          (first = p ∨ startswith first (ensureTrailingSlash p) = true) := by
    intro store p
    cases hl : listBlobs store p with
    | nil => simp [exists?, hl]
    | cons a l =>
      simp only [exists?, hl]
      constructor
      · intro h
        refine ⟨a, l, rfl, ?_⟩
        by_cases hpa : (p == a) = true
        · exact Or.inl (beq_iff_eq.mp hpa).symm
        · rw [if_neg hpa] at h
          exact Or.inr h
      · rintro ⟨first, rest, heq, hcase⟩
        injection heq with h1 h2
        subst h1
        rcases hcase with rfl | hsw
        · simp
        · by_cases hpa : (p == a) = true
          · rw [if_pos hpa]
          · rw [if_neg hpa]
            exact hsw
  refine ⟨hiff, fun store p h => ?_⟩
  obtain ⟨first, rest, heq, hcase⟩ := (hiff store p).mp h
  have hmem : first ∈ listBlobs store p := by
    rw [heq]; exact List.mem_cons_self _ _
  have hmem2 : first ∈ store := List.mem_of_mem_filter hmem
  rcases hcase with rfl | hsw
  · exact Or.inl hmem2
  · exact Or.inr ⟨first, hmem2, hsw⟩

/-- Witness for `exists_amended` at store `["a/f"]` and path `a`. -/
theorem exists_amended_witness :
    (AzureTree.exists? ["a/f"] "a" = true ↔
      ∃ first rest, listBlobs ["a/f"] "a" = first :: rest ∧
        (first = "a" ∨ startswith first (ensureTrailingSlash "a") = true)) ∧
    ("a" ∈ (["a/f"] : Container) ∨
      ∃ k ∈ (["a/f"] : Container),
        startswith k (ensureTrailingSlash "a") = true) :=
  ⟨exists_amended.1 ["a/f"] "a", exists_amended.2 ["a/f"] "a" (by decide)⟩

/-- C10: `exists(P)` depends only on the first element of the raw-prefix
listing: when `P` does not end in the delimiter and the first listed name
is neither `P` nor an extension of `P ++ "/"`, `exists` returns false, no
matter what follows in the listing. -/
theorem exists_first_result_only :
    ∀ (store : Container) (p : String), endswith p "/" = false →
      ∀ (first : String) (rest : List String),
        listBlobs store p = first :: rest →
        first ≠ p → startswith first (p ++ "/") = false →
        AzureTree.exists? store p = false := by
  intro store p hp first rest hl hne hsw
  simp only [exists?, hl]
  rw [if_neg (fun hpa => hne (beq_iff_eq.mp hpa).symm)]
  simpa [ensureTrailingSlash, hp] using hsw

/-- Witness for `exists_first_result_only`: store `["b#1", "b/c"]`, path
`b`; the later descendant `b/c` is ignored. -/
theorem exists_first_result_only_witness :
    AzureTree.exists? ["b#1", "b/c"] "b" = false :=
  exists_first_result_only ["b#1", "b/c"] "b" rfl "b#1" ["b/c"]
    (by decide) (by decide) (by decide)

/-- C4: every call to `walk_files` raises `TypeError` on first iteration,
because `path = path_info.path / ""` applies `/` to a string; the claimed
normalize-list-filter-yield behaviour is never reached. -/
theorem walk_files_type_error :
    (∀ (store : Container) (p : String) (pfxKwarg : Bool),
        walk_files store p pfxKwarg = Except.error PyExc.typeError) ∧
    walk_files ["data/x", "data/d/"] "data" false =
      Except.error PyExc.typeError :=
  ⟨fun _ _ _ => rfl, rfl⟩

end AzureTree
